import Mathlib

/-!
Shallow embedding of the flight-motion model of `src/game.js` (the pigeon
side-scrolling flight prototype).  JavaScript numbers are modelled as exact
rationals; the mutable scene fields become a `FlightState` record and every
per-frame sub-step of `GameScene.update` becomes a state-transforming
function translated line by line from the source.
-/

namespace Pigeon

/-- Physics constants from the `PHYSICS` object in `src/game.js`. -/
def PHYSICS.GRAVITY : ℚ := 800

def PHYSICS.GLIDE_GRAVITY : ℚ := 600

def PHYSICS.THRUST : ℚ := -500

def PHYSICS.THRUST_FORWARD_BOOST : ℚ := 20

def PHYSICS.GLIDE_FORWARD_MAINTAIN : ℚ := 0.99

def PHYSICS.FALL_DECELERATION : ℚ := 0.95

def PHYSICS.BASE_FORWARD_SPEED : ℚ := 70

def PHYSICS.MAX_FORWARD_SPEED : ℚ := 1700

def PHYSICS.FALL_THRESHOLD : ℚ := 300

/-- Movement constants from the `MOVEMENT` object in `src/game.js`. -/
def MOVEMENT.MIN_X : ℚ := 200

def MOVEMENT.MAX_X : ℚ := 800

def MOVEMENT.CAMERA_LERP : ℚ := 0.1

def MOVEMENT.WORLD_SCROLL_FACTOR : ℚ := 1.0

/-- Background constant from the `BACKGROUND` object in `src/game.js`. -/
def BACKGROUND.CONSTANT_SCROLL_SPEED : ℚ := 130

/-- Game constants from the `GAME` object in `src/game.js`. -/
def GAME.HEIGHT : ℚ := 1080

/-- The mutable state the per-frame update acts on: the scene fields of
`GameScene` together with the physics body's position and velocity. -/
structure FlightState where
  positionX : ℚ
  positionY : ℚ
  velocityX : ℚ
  velocityY : ℚ
  forwardVelocity : ℚ
  isThrusting : Bool
  worldOffset : ℚ
  backgroundOffset : ℚ
  cameraScrollX : ℚ
  cameraTargetX : ℚ
  gravityY : ℚ
  distance : ℤ
  tilePositionX : ℚ
  deriving Repr, DecidableEq

/-- `Phaser.Math.Clamp(value, min, max) = Math.max(min, Math.min(max, value))`. -/
def phaserClamp (value lo hi : ℚ) : ℚ :=
  max lo (min hi value)

/-- `Phaser.Math.Linear(p0, p1, t) = (p1 - p0) * t + p0`. -/
def phaserLinear (p0 p1 t : ℚ) : ℚ :=
  (p1 - p0) * t + p0

/-- `GameScene.applyPhysics`: if thrusting, set the body's vertical velocity to
`THRUST` and select normal gravity; otherwise select glide gravity.  (The
source takes an unused `deltaTime` parameter.) -/
def applyPhysics (s : FlightState) : FlightState :=
  if s.isThrusting then
    { s with velocityY := PHYSICS.THRUST, gravityY := PHYSICS.GRAVITY }
  else
    { s with gravityY := PHYSICS.GLIDE_GRAVITY }

/-- `GameScene.updateForwardVelocity`: boost forward speed while thrusting,
otherwise decay it (faster when falling badly), clamp to
`[BASE_FORWARD_SPEED, MAX_FORWARD_SPEED]`, and apply it as the body's
horizontal velocity via `setVelocityX`. -/
def updateForwardVelocity (deltaTime : ℚ) (s : FlightState) : FlightState :=
  let boosted := s.forwardVelocity + PHYSICS.THRUST_FORWARD_BOOST * deltaTime
  let s1 :=
    if s.isThrusting then
      { s with forwardVelocity := boosted }
    else
      if s.velocityY > PHYSICS.FALL_THRESHOLD then
        { s with forwardVelocity := s.forwardVelocity * PHYSICS.FALL_DECELERATION }
      else
        { s with forwardVelocity := s.forwardVelocity * PHYSICS.GLIDE_FORWARD_MAINTAIN }
  let clamped := phaserClamp s1.forwardVelocity PHYSICS.BASE_FORWARD_SPEED PHYSICS.MAX_FORWARD_SPEED
  let s2 := { s1 with forwardVelocity := clamped }
  { s2 with velocityX := s2.forwardVelocity }

/-- Modelled from the spec: the physics body's per-frame integration is
host-engine (Phaser arcade physics) code absent from this snapshot.  Per the
spec's step 1 and 2 it performs `velocityY += activeGravity * delta` and
`positionY += velocityY * delta` with the gravity selected this frame, and
consumes the applied horizontal velocity as `positionX += velocityX * delta`. -/
def integrate (delta : ℚ) (s : FlightState) : FlightState :=
  let vY := s.velocityY + s.gravityY * delta
  { s with
    velocityY := vY
    positionY := s.positionY + vY * delta
    positionX := s.positionX + s.velocityX * delta }

/-- `GameScene.constrainBirdPosition`: clamp the bird into
`[MIN_X, MAX_X] × [0, HEIGHT]`, flooring or capping the matching velocity
component whenever a clamp triggers. -/
def constrainBirdPosition (s : FlightState) : FlightState :=
  let s1 :=
    if s.positionX < MOVEMENT.MIN_X then
      { s with positionX := MOVEMENT.MIN_X, velocityX := max 0 s.velocityX }
    else if s.positionX > MOVEMENT.MAX_X then
      { s with positionX := MOVEMENT.MAX_X, velocityX := min 0 s.velocityX }
    else s
  if s1.positionY < 0 then
    { s1 with positionY := 0, velocityY := max 0 s1.velocityY }
  else if s1.positionY > GAME.HEIGHT then
    { s1 with positionY := GAME.HEIGHT, velocityY := min 0 s1.velocityY }
  else s1

/-- `GameScene.updateCamera`: aim the camera at `worldOffset * 0.2` and ease
the camera scroll toward it with `Phaser.Math.Linear` and `CAMERA_LERP`.
(The source takes an unused `deltaTime` parameter.) -/
def updateCamera (s : FlightState) : FlightState :=
  let target := s.worldOffset * 0.2
  { s with
    cameraTargetX := target
    cameraScrollX := phaserLinear s.cameraScrollX target MOVEMENT.CAMERA_LERP }

/-- `GameScene.updateWorldPosition`: accumulate forward travel into
`worldOffset` and derive the displayed distance as `floor(worldOffset / 10)`. -/
def updateWorldPosition (deltaTime : ℚ) (s : FlightState) : FlightState :=
  let w := s.worldOffset + s.forwardVelocity * deltaTime * MOVEMENT.WORLD_SCROLL_FACTOR
  { s with worldOffset := w, distance := Int.floor (w / 10) }

/-- `GameScene.updateBackgroundScrolling`: hand the background accumulator to
the tiled background as its horizontal tile offset. -/
def updateBackgroundScrolling (s : FlightState) : FlightState :=
  { s with tilePositionX := s.backgroundOffset }

/-- One frame of `GameScene.update` given the already clamped `deltaTime` in
seconds: the sub-steps in source order, with the spec-modelled host
integration inserted between the velocity-writing steps and bound
enforcement, as the spec's step order describes. -/
def frame (deltaTime : ℚ) (s : FlightState) : FlightState :=
  let s1 := applyPhysics s
  let s2 := updateForwardVelocity deltaTime s1
  let s3 := integrate deltaTime s2
  let s4 := constrainBirdPosition s3
  let s5 := updateCamera s4
  let s6 := updateWorldPosition deltaTime s5
  let newBackground := s6.backgroundOffset + BACKGROUND.CONSTANT_SCROLL_SPEED * deltaTime
  let s7 := { s6 with backgroundOffset := newBackground }
  updateBackgroundScrolling s7

/-- `GameScene.update`: convert the elapsed `delta` from milliseconds to
seconds, cap it at 1/60, and run the frame's sub-steps. -/
def update (delta : ℚ) (s : FlightState) : FlightState :=
  frame (min (delta / 1000) (1 / 60)) s

/-- The `pointerdown` handler installed by `GameScene.setupInput`. -/
def pointerDown (s : FlightState) : FlightState :=
  { s with isThrusting := true }

/-- The `pointerup` handler installed by `GameScene.setupInput`. -/
def pointerUp (s : FlightState) : FlightState :=
  { s with isThrusting := false }

/-- The state at scene start: the `GameScene` constructor fields, the bird
spawned at `(MIN_X, HEIGHT / 2)` by `createBird`, and the world gravity set to
`GRAVITY` by `create`. -/
def initState : FlightState :=
  { positionX := MOVEMENT.MIN_X
    positionY := GAME.HEIGHT / 2
    velocityX := 0
    velocityY := 0
    forwardVelocity := PHYSICS.BASE_FORWARD_SPEED
    isThrusting := false
    worldOffset := 0
    backgroundOffset := 0
    cameraScrollX := 0
    cameraTargetX := 0
    gravityY := PHYSICS.GRAVITY
    distance := 0
    tilePositionX := 0 }

/-- One observed frame of a run: the pointer handlers have left `isThrusting`
at the given value when the frame fires with the given `deltaTime`. -/
def stepInput (s : FlightState) (input : ℚ × Bool) : FlightState :=
  frame input.1 { s with isThrusting := input.2 }

/-- A run of the game: fold the frames over a list of
`(deltaTime, isThrusting)` inputs. -/
def run (s : FlightState) (inputs : List (ℚ × Bool)) : FlightState :=
  inputs.foldl stepInput s

/-- The spec's scenario 4 input: the bird driven to `positionX = 190`
(left of `MIN_X`) with positive horizontal velocity. -/
def lowXState : FlightState :=
  { initState with positionX := 190, velocityX := 50 }

/-! Frame-effect lemmas: which fields each sub-step reads and writes. -/

@[simp] theorem applyPhysics_forwardVelocity (s : FlightState) :
    (applyPhysics s).forwardVelocity = s.forwardVelocity := by
  unfold applyPhysics; split <;> rfl

@[simp] theorem applyPhysics_velocityX (s : FlightState) :
    (applyPhysics s).velocityX = s.velocityX := by
  unfold applyPhysics; split <;> rfl

@[simp] theorem applyPhysics_isThrusting (s : FlightState) :
    (applyPhysics s).isThrusting = s.isThrusting := by
  unfold applyPhysics; split <;> rfl

@[simp] theorem applyPhysics_worldOffset (s : FlightState) :
    (applyPhysics s).worldOffset = s.worldOffset := by
  unfold applyPhysics; split <;> rfl

@[simp] theorem applyPhysics_backgroundOffset (s : FlightState) :
    (applyPhysics s).backgroundOffset = s.backgroundOffset := by
  unfold applyPhysics; split <;> rfl

@[simp] theorem applyPhysics_cameraScrollX (s : FlightState) :
    (applyPhysics s).cameraScrollX = s.cameraScrollX := by
  unfold applyPhysics; split <;> rfl

@[simp] theorem applyPhysics_velocityY (s : FlightState) :
    (applyPhysics s).velocityY = if s.isThrusting then PHYSICS.THRUST else s.velocityY := by
  unfold applyPhysics; split <;> simp [*]

@[simp] theorem applyPhysics_gravityY (s : FlightState) :
    (applyPhysics s).gravityY =
      if s.isThrusting then PHYSICS.GRAVITY else PHYSICS.GLIDE_GRAVITY := by
  unfold applyPhysics; split <;> simp [*]

@[simp] theorem updateForwardVelocity_forwardVelocity (dt : ℚ) (s : FlightState) :
    (updateForwardVelocity dt s).forwardVelocity =
      phaserClamp
        (if s.isThrusting then s.forwardVelocity + PHYSICS.THRUST_FORWARD_BOOST * dt
          else if s.velocityY > PHYSICS.FALL_THRESHOLD then
            s.forwardVelocity * PHYSICS.FALL_DECELERATION
          else s.forwardVelocity * PHYSICS.GLIDE_FORWARD_MAINTAIN)
        PHYSICS.BASE_FORWARD_SPEED PHYSICS.MAX_FORWARD_SPEED := by
  simp only [updateForwardVelocity]
  all_goals split <;> (try split) <;> rfl

@[simp] theorem updateForwardVelocity_velocityX (dt : ℚ) (s : FlightState) :
    (updateForwardVelocity dt s).velocityX = (updateForwardVelocity dt s).forwardVelocity := by
  simp only [updateForwardVelocity]

@[simp] theorem updateForwardVelocity_isThrusting (dt : ℚ) (s : FlightState) :
    (updateForwardVelocity dt s).isThrusting = s.isThrusting := by
  simp only [updateForwardVelocity]
  all_goals split <;> (try split) <;> rfl

@[simp] theorem updateForwardVelocity_velocityY (dt : ℚ) (s : FlightState) :
    (updateForwardVelocity dt s).velocityY = s.velocityY := by
  simp only [updateForwardVelocity]
  all_goals split <;> (try split) <;> rfl

@[simp] theorem updateForwardVelocity_gravityY (dt : ℚ) (s : FlightState) :
    (updateForwardVelocity dt s).gravityY = s.gravityY := by
  simp only [updateForwardVelocity]
  all_goals split <;> (try split) <;> rfl

@[simp] theorem updateForwardVelocity_worldOffset (dt : ℚ) (s : FlightState) :
    (updateForwardVelocity dt s).worldOffset = s.worldOffset := by
  simp only [updateForwardVelocity]
  all_goals split <;> (try split) <;> rfl

@[simp] theorem updateForwardVelocity_backgroundOffset (dt : ℚ) (s : FlightState) :
    (updateForwardVelocity dt s).backgroundOffset = s.backgroundOffset := by
  simp only [updateForwardVelocity]
  all_goals split <;> (try split) <;> rfl

@[simp] theorem updateForwardVelocity_cameraScrollX (dt : ℚ) (s : FlightState) :
    (updateForwardVelocity dt s).cameraScrollX = s.cameraScrollX := by
  simp only [updateForwardVelocity]
  all_goals split <;> (try split) <;> rfl

@[simp] theorem integrate_forwardVelocity (dt : ℚ) (s : FlightState) :
    (integrate dt s).forwardVelocity = s.forwardVelocity := rfl

@[simp] theorem integrate_isThrusting (dt : ℚ) (s : FlightState) :
    (integrate dt s).isThrusting = s.isThrusting := rfl

@[simp] theorem integrate_worldOffset (dt : ℚ) (s : FlightState) :
    (integrate dt s).worldOffset = s.worldOffset := rfl

@[simp] theorem integrate_backgroundOffset (dt : ℚ) (s : FlightState) :
    (integrate dt s).backgroundOffset = s.backgroundOffset := rfl

@[simp] theorem integrate_cameraScrollX (dt : ℚ) (s : FlightState) :
    (integrate dt s).cameraScrollX = s.cameraScrollX := rfl

@[simp] theorem integrate_velocityY (dt : ℚ) (s : FlightState) :
    (integrate dt s).velocityY = s.velocityY + s.gravityY * dt := rfl

@[simp] theorem constrainBirdPosition_forwardVelocity (s : FlightState) :
    (constrainBirdPosition s).forwardVelocity = s.forwardVelocity := by
  simp only [constrainBirdPosition]
  all_goals split <;> split <;> (try split) <;> (try split) <;> rfl

@[simp] theorem constrainBirdPosition_isThrusting (s : FlightState) :
    (constrainBirdPosition s).isThrusting = s.isThrusting := by
  simp only [constrainBirdPosition]
  all_goals split <;> split <;> (try split) <;> (try split) <;> rfl

@[simp] theorem constrainBirdPosition_worldOffset (s : FlightState) :
    (constrainBirdPosition s).worldOffset = s.worldOffset := by
  simp only [constrainBirdPosition]
  all_goals split <;> split <;> (try split) <;> (try split) <;> rfl

@[simp] theorem constrainBirdPosition_backgroundOffset (s : FlightState) :
    (constrainBirdPosition s).backgroundOffset = s.backgroundOffset := by
  simp only [constrainBirdPosition]
  all_goals split <;> split <;> (try split) <;> (try split) <;> rfl

@[simp] theorem constrainBirdPosition_cameraScrollX (s : FlightState) :
    (constrainBirdPosition s).cameraScrollX = s.cameraScrollX := by
  simp only [constrainBirdPosition]
  all_goals split <;> split <;> (try split) <;> (try split) <;> rfl

@[simp] theorem updateCamera_positionX (s : FlightState) :
    (updateCamera s).positionX = s.positionX := rfl

@[simp] theorem updateCamera_positionY (s : FlightState) :
    (updateCamera s).positionY = s.positionY := rfl

@[simp] theorem updateCamera_forwardVelocity (s : FlightState) :
    (updateCamera s).forwardVelocity = s.forwardVelocity := rfl

@[simp] theorem updateCamera_isThrusting (s : FlightState) :
    (updateCamera s).isThrusting = s.isThrusting := rfl

@[simp] theorem updateCamera_worldOffset (s : FlightState) :
    (updateCamera s).worldOffset = s.worldOffset := rfl

@[simp] theorem updateCamera_backgroundOffset (s : FlightState) :
    (updateCamera s).backgroundOffset = s.backgroundOffset := rfl

@[simp] theorem updateCamera_cameraTargetX (s : FlightState) :
    (updateCamera s).cameraTargetX = s.worldOffset * 0.2 := rfl

@[simp] theorem updateCamera_cameraScrollX (s : FlightState) :
    (updateCamera s).cameraScrollX =
      phaserLinear s.cameraScrollX (s.worldOffset * 0.2) MOVEMENT.CAMERA_LERP := rfl

@[simp] theorem updateWorldPosition_positionX (dt : ℚ) (s : FlightState) :
    (updateWorldPosition dt s).positionX = s.positionX := rfl

@[simp] theorem updateWorldPosition_positionY (dt : ℚ) (s : FlightState) :
    (updateWorldPosition dt s).positionY = s.positionY := rfl

@[simp] theorem updateWorldPosition_forwardVelocity (dt : ℚ) (s : FlightState) :
    (updateWorldPosition dt s).forwardVelocity = s.forwardVelocity := rfl

@[simp] theorem updateWorldPosition_isThrusting (dt : ℚ) (s : FlightState) :
    (updateWorldPosition dt s).isThrusting = s.isThrusting := rfl

@[simp] theorem updateWorldPosition_backgroundOffset (dt : ℚ) (s : FlightState) :
    (updateWorldPosition dt s).backgroundOffset = s.backgroundOffset := rfl

@[simp] theorem updateWorldPosition_cameraTargetX (dt : ℚ) (s : FlightState) :
    (updateWorldPosition dt s).cameraTargetX = s.cameraTargetX := rfl

@[simp] theorem updateWorldPosition_cameraScrollX (dt : ℚ) (s : FlightState) :
    (updateWorldPosition dt s).cameraScrollX = s.cameraScrollX := rfl

@[simp] theorem updateWorldPosition_worldOffset (dt : ℚ) (s : FlightState) :
    (updateWorldPosition dt s).worldOffset =
      s.worldOffset + s.forwardVelocity * dt * MOVEMENT.WORLD_SCROLL_FACTOR := rfl

@[simp] theorem updateWorldPosition_distance (dt : ℚ) (s : FlightState) :
    (updateWorldPosition dt s).distance =
      Int.floor ((s.worldOffset + s.forwardVelocity * dt * MOVEMENT.WORLD_SCROLL_FACTOR) / 10) :=
  rfl

@[simp] theorem updateBackgroundScrolling_positionX (s : FlightState) :
    (updateBackgroundScrolling s).positionX = s.positionX := rfl

@[simp] theorem updateBackgroundScrolling_positionY (s : FlightState) :
    (updateBackgroundScrolling s).positionY = s.positionY := rfl

@[simp] theorem updateBackgroundScrolling_forwardVelocity (s : FlightState) :
    (updateBackgroundScrolling s).forwardVelocity = s.forwardVelocity := rfl

@[simp] theorem updateBackgroundScrolling_isThrusting (s : FlightState) :
    (updateBackgroundScrolling s).isThrusting = s.isThrusting := rfl

@[simp] theorem updateBackgroundScrolling_worldOffset (s : FlightState) :
    (updateBackgroundScrolling s).worldOffset = s.worldOffset := rfl

@[simp] theorem updateBackgroundScrolling_backgroundOffset (s : FlightState) :
    (updateBackgroundScrolling s).backgroundOffset = s.backgroundOffset := rfl

@[simp] theorem updateBackgroundScrolling_cameraTargetX (s : FlightState) :
    (updateBackgroundScrolling s).cameraTargetX = s.cameraTargetX := rfl

@[simp] theorem updateBackgroundScrolling_cameraScrollX (s : FlightState) :
    (updateBackgroundScrolling s).cameraScrollX = s.cameraScrollX := rfl

@[simp] theorem updateBackgroundScrolling_distance (s : FlightState) :
    (updateBackgroundScrolling s).distance = s.distance := rfl

@[simp] theorem integrate_gravityY (dt : ℚ) (s : FlightState) :
    (integrate dt s).gravityY = s.gravityY := rfl

@[simp] theorem constrainBirdPosition_gravityY (s : FlightState) :
    (constrainBirdPosition s).gravityY = s.gravityY := by
  simp only [constrainBirdPosition]
  all_goals split <;> split <;> (try split) <;> (try split) <;> rfl

@[simp] theorem updateCamera_gravityY (s : FlightState) :
    (updateCamera s).gravityY = s.gravityY := rfl

@[simp] theorem updateWorldPosition_gravityY (dt : ℚ) (s : FlightState) :
    (updateWorldPosition dt s).gravityY = s.gravityY := rfl

@[simp] theorem updateBackgroundScrolling_gravityY (s : FlightState) :
    (updateBackgroundScrolling s).gravityY = s.gravityY := rfl

theorem constrainBirdPosition_positionX (s : FlightState) :
    (constrainBirdPosition s).positionX =
      if s.positionX < MOVEMENT.MIN_X then MOVEMENT.MIN_X
      else if s.positionX > MOVEMENT.MAX_X then MOVEMENT.MAX_X
      else s.positionX := by
  simp only [constrainBirdPosition]
  split_ifs <;> rfl

theorem constrainBirdPosition_positionY (s : FlightState) :
    (constrainBirdPosition s).positionY =
      if s.positionY < 0 then 0
      else if s.positionY > GAME.HEIGHT then GAME.HEIGHT
      else s.positionY := by
  simp only [constrainBirdPosition]
  split_ifs <;> rfl

theorem constrainBirdPosition_velocityX (s : FlightState) :
    (constrainBirdPosition s).velocityX =
      if s.positionX < MOVEMENT.MIN_X then max 0 s.velocityX
      else if s.positionX > MOVEMENT.MAX_X then min 0 s.velocityX
      else s.velocityX := by
  simp only [constrainBirdPosition]
  split_ifs <;> rfl

theorem constrainBirdPosition_velocityY (s : FlightState) :
    (constrainBirdPosition s).velocityY =
      if s.positionY < 0 then max 0 s.velocityY
      else if s.positionY > GAME.HEIGHT then min 0 s.velocityY
      else s.velocityY := by
  simp only [constrainBirdPosition]
  split_ifs <;> rfl

theorem constrainBirdPosition_id (s : FlightState)
    (h1 : MOVEMENT.MIN_X ≤ s.positionX) (h2 : s.positionX ≤ MOVEMENT.MAX_X)
    (h3 : 0 ≤ s.positionY) (h4 : s.positionY ≤ GAME.HEIGHT) :
    constrainBirdPosition s = s := by
  simp only [constrainBirdPosition]
  rw [if_neg (not_lt.mpr h1), if_neg (not_lt.mpr h2),
    if_neg (not_lt.mpr h3), if_neg (not_lt.mpr h4)]

theorem constrainBirdPosition_x_bounds (s : FlightState) :
    MOVEMENT.MIN_X ≤ (constrainBirdPosition s).positionX ∧
    (constrainBirdPosition s).positionX ≤ MOVEMENT.MAX_X := by
  rw [constrainBirdPosition_positionX]
  split_ifs with h1 h2
  · exact ⟨le_refl _, by norm_num [MOVEMENT.MIN_X, MOVEMENT.MAX_X]⟩
  · exact ⟨by norm_num [MOVEMENT.MIN_X, MOVEMENT.MAX_X], le_refl _⟩
  · exact ⟨le_of_not_lt h1, le_of_not_lt h2⟩

theorem constrainBirdPosition_y_bounds (s : FlightState) :
    0 ≤ (constrainBirdPosition s).positionY ∧
    (constrainBirdPosition s).positionY ≤ GAME.HEIGHT := by
  rw [constrainBirdPosition_positionY]
  split_ifs with h1 h2
  · exact ⟨le_refl _, by norm_num [GAME.HEIGHT]⟩
  · exact ⟨by norm_num [GAME.HEIGHT], le_refl _⟩
  · exact ⟨le_of_not_lt h1, le_of_not_lt h2⟩

theorem frame_positionX (dt : ℚ) (s : FlightState) :
    (frame dt s).positionX =
      (constrainBirdPosition (integrate dt (updateForwardVelocity dt (applyPhysics s)))).positionX := by
  simp [frame]

theorem frame_positionY (dt : ℚ) (s : FlightState) :
    (frame dt s).positionY =
      (constrainBirdPosition (integrate dt (updateForwardVelocity dt (applyPhysics s)))).positionY := by
  simp [frame]

theorem le_phaserClamp (v lo hi : ℚ) : lo ≤ phaserClamp v lo hi :=
  le_max_left _ _

theorem phaserClamp_le (v lo hi : ℚ) (h : lo ≤ hi) : phaserClamp v lo hi ≤ hi :=
  max_le h (min_le_left _ _)

theorem frame_forwardVelocity (dt : ℚ) (s : FlightState) :
    (frame dt s).forwardVelocity = (updateForwardVelocity dt (applyPhysics s)).forwardVelocity := by
  simp [frame]

theorem base_le_frame_forwardVelocity (dt : ℚ) (s : FlightState) :
    PHYSICS.BASE_FORWARD_SPEED ≤ (frame dt s).forwardVelocity := by
  rw [frame_forwardVelocity, updateForwardVelocity_forwardVelocity]
  exact le_phaserClamp _ _ _

theorem frame_forwardVelocity_le_max (dt : ℚ) (s : FlightState) :
    (frame dt s).forwardVelocity ≤ PHYSICS.MAX_FORWARD_SPEED := by
  rw [frame_forwardVelocity, updateForwardVelocity_forwardVelocity]
  exact phaserClamp_le _ _ _ (by norm_num [PHYSICS.BASE_FORWARD_SPEED, PHYSICS.MAX_FORWARD_SPEED])

theorem frame_worldOffset (dt : ℚ) (s : FlightState) :
    (frame dt s).worldOffset =
      s.worldOffset + (frame dt s).forwardVelocity * dt * MOVEMENT.WORLD_SCROLL_FACTOR := by
  simp [frame]

theorem frame_backgroundOffset (dt : ℚ) (s : FlightState) :
    (frame dt s).backgroundOffset =
      s.backgroundOffset + BACKGROUND.CONSTANT_SCROLL_SPEED * dt := by
  simp [frame]

theorem frame_worldOffset_mono (dt : ℚ) (s : FlightState) (h : 0 ≤ dt) :
    s.worldOffset ≤ (frame dt s).worldOffset := by
  rw [frame_worldOffset]
  have hfv : (0 : ℚ) ≤ (frame dt s).forwardVelocity :=
    le_trans (by norm_num [PHYSICS.BASE_FORWARD_SPEED]) (base_le_frame_forwardVelocity dt s)
  have hnn : (0 : ℚ) ≤ (frame dt s).forwardVelocity * dt * MOVEMENT.WORLD_SCROLL_FACTOR :=
    mul_nonneg (mul_nonneg hfv h) (by norm_num [MOVEMENT.WORLD_SCROLL_FACTOR])
  linarith

theorem frame_backgroundOffset_mono (dt : ℚ) (s : FlightState) (h : 0 ≤ dt) :
    s.backgroundOffset ≤ (frame dt s).backgroundOffset := by
  rw [frame_backgroundOffset]
  have hnn : (0 : ℚ) ≤ BACKGROUND.CONSTANT_SCROLL_SPEED * dt :=
    mul_nonneg (by norm_num [BACKGROUND.CONSTANT_SCROLL_SPEED]) h
  linarith

theorem run_offsets_mono (inputs : List (ℚ × Bool)) :
    ∀ s : FlightState, (∀ p ∈ inputs, 0 ≤ p.1) →
      s.worldOffset ≤ (run s inputs).worldOffset ∧
      s.backgroundOffset ≤ (run s inputs).backgroundOffset := by
  induction inputs with
  | nil => exact fun s _ => ⟨le_refl _, le_refl _⟩
  | cons p ps ih =>
    intro s h
    have hp : 0 ≤ p.1 := h p (List.mem_cons_self _ _)
    have hps : ∀ q ∈ ps, 0 ≤ q.1 := fun q hq => h q (List.mem_cons_of_mem _ hq)
    have h1 := frame_worldOffset_mono p.1 { s with isThrusting := p.2 } hp
    have h2 := frame_backgroundOffset_mono p.1 { s with isThrusting := p.2 } hp
    have htail := ih (stepInput s p) hps
    exact ⟨le_trans h1 htail.1, le_trans h2 htail.2⟩

theorem run_backgroundOffset (inputs : List (ℚ × Bool)) :
    ∀ s : FlightState, (run s inputs).backgroundOffset =
      s.backgroundOffset + BACKGROUND.CONSTANT_SCROLL_SPEED * (inputs.map Prod.fst).sum := by
  induction inputs with
  | nil => intro s; simp [run]
  | cons p ps ih =>
    intro s
    have hstep : run s (p :: ps) = run (stepInput s p) ps := rfl
    rw [hstep, ih]
    have hb : (stepInput s p).backgroundOffset =
        s.backgroundOffset + BACKGROUND.CONSTANT_SCROLL_SPEED * p.1 :=
      frame_backgroundOffset p.1 _
    rw [hb]
    simp only [List.map_cons, List.sum_cons]
    ring

/-! The claims. -/

/-- C1: In every frame's forward-velocity update, thrusting adds
`THRUST_FORWARD_BOOST * delta` (20 · δ) to `forwardVelocity`; otherwise the
speed is multiplied by `FALL_DECELERATION` (0.95) when `velocityY` exceeds
`FALL_THRESHOLD` (300), and by `GLIDE_FORWARD_MAINTAIN` (0.99) when it does
not; the result is clamped to `[BASE_FORWARD_SPEED, MAX_FORWARD_SPEED]` =
`[70, 1700]` and applied as the bird's horizontal velocity.  The
forward velocity the frame ends with is exactly the one this step computes. -/
theorem forward_velocity_update_rule (dt : ℚ) (s : FlightState) :
    (updateForwardVelocity dt s).forwardVelocity =
      phaserClamp
        (if s.isThrusting then s.forwardVelocity + 20 * dt
          else if s.velocityY > 300 then s.forwardVelocity * 0.95
          else s.forwardVelocity * 0.99)
        70 1700 ∧
    (updateForwardVelocity dt s).velocityX = (updateForwardVelocity dt s).forwardVelocity ∧
    (frame dt s).forwardVelocity = (updateForwardVelocity dt (applyPhysics s)).forwardVelocity := by
  refine ⟨?_, updateForwardVelocity_velocityX dt s, frame_forwardVelocity dt s⟩
  rw [updateForwardVelocity_forwardVelocity]
  norm_num [PHYSICS.THRUST_FORWARD_BOOST, PHYSICS.FALL_THRESHOLD, PHYSICS.FALL_DECELERATION,
    PHYSICS.GLIDE_FORWARD_MAINTAIN, PHYSICS.BASE_FORWARD_SPEED, PHYSICS.MAX_FORWARD_SPEED]

/-- C2: In every frame's vertical-force step (the first sub-step), thrusting
sets `velocityY` to `THRUST` (−500) immediately, pre-integration, and selects
gravity `GRAVITY` (800); not thrusting leaves `velocityY` alone and selects
`GLIDE_GRAVITY` (600); the integration for that frame then uses the gravity
selected in that same frame, so the post-integration vertical velocity is the
impulse plus the frame's gravity times delta. -/
theorem vertical_force_rule (dt : ℚ) (s : FlightState) :
    (applyPhysics s).velocityY = (if s.isThrusting then -500 else s.velocityY) ∧
    (applyPhysics s).gravityY = (if s.isThrusting then 800 else 600) ∧
    (frame dt s).gravityY = (if s.isThrusting then 800 else 600) ∧
    (integrate dt (updateForwardVelocity dt (applyPhysics s))).velocityY =
      (if s.isThrusting then (-500 : ℚ) else s.velocityY) +
        (if s.isThrusting then (800 : ℚ) else 600) * dt := by
  refine ⟨?_, ?_, ?_, ?_⟩
  · simp [PHYSICS.THRUST]
  · simp [PHYSICS.GRAVITY, PHYSICS.GLIDE_GRAVITY]
  · simp [frame, PHYSICS.GRAVITY, PHYSICS.GLIDE_GRAVITY]
  · simp [PHYSICS.THRUST, PHYSICS.GRAVITY, PHYSICS.GLIDE_GRAVITY]

/-- C3: After every frame's forward-velocity update,
`BASE_FORWARD_SPEED ≤ forwardVelocity ≤ MAX_FORWARD_SPEED` holds — for every
reachable state, since it holds for arbitrary pre-states — and the initial
forward velocity is `BASE_FORWARD_SPEED`. -/
theorem forward_velocity_invariant (dt : ℚ) (s : FlightState) :
    PHYSICS.BASE_FORWARD_SPEED ≤ (frame dt s).forwardVelocity ∧
    (frame dt s).forwardVelocity ≤ PHYSICS.MAX_FORWARD_SPEED ∧
    initState.forwardVelocity = PHYSICS.BASE_FORWARD_SPEED :=
  ⟨base_le_frame_forwardVelocity dt s, frame_forwardVelocity_le_max dt s, rfl⟩

/-- C4: After the bound-enforcement step — and hence at the end of every
frame, since no later sub-step moves the bird — the position satisfies
`MIN_X ≤ positionX ≤ MAX_X` and `0 ≤ positionY ≤ HEIGHT`, from any pre-state. -/
theorem position_invariant (dt : ℚ) (s : FlightState) :
    (MOVEMENT.MIN_X ≤ (constrainBirdPosition s).positionX ∧
      (constrainBirdPosition s).positionX ≤ MOVEMENT.MAX_X ∧
      0 ≤ (constrainBirdPosition s).positionY ∧
      (constrainBirdPosition s).positionY ≤ GAME.HEIGHT) ∧
    MOVEMENT.MIN_X ≤ (frame dt s).positionX ∧
    (frame dt s).positionX ≤ MOVEMENT.MAX_X ∧
    0 ≤ (frame dt s).positionY ∧
    (frame dt s).positionY ≤ GAME.HEIGHT := by
  refine ⟨⟨(constrainBirdPosition_x_bounds s).1, (constrainBirdPosition_x_bounds s).2,
    (constrainBirdPosition_y_bounds s).1, (constrainBirdPosition_y_bounds s).2⟩, ?_, ?_, ?_, ?_⟩
  · rw [frame_positionX]; exact (constrainBirdPosition_x_bounds _).1
  · rw [frame_positionX]; exact (constrainBirdPosition_x_bounds _).2
  · rw [frame_positionY]; exact (constrainBirdPosition_y_bounds _).1
  · rw [frame_positionY]; exact (constrainBirdPosition_y_bounds _).2

/-- C5: In the bound-enforcement step, each triggered position clamp also
clamps the matching velocity component: below `MIN_X` the position becomes
`MIN_X` and horizontal velocity `max 0 v`; above `MAX_X` it becomes `MAX_X`
and horizontal velocity `min 0 v`; above the top (`positionY < 0`) vertical
velocity becomes `max 0 v`; below the bottom (`positionY > HEIGHT`) it
becomes `min 0 v`; and when no clamp triggers, the step changes nothing. -/
theorem bound_velocity_clamp_rule (s : FlightState) :
    (s.positionX < MOVEMENT.MIN_X →
      (constrainBirdPosition s).positionX = MOVEMENT.MIN_X ∧
      (constrainBirdPosition s).velocityX = max 0 s.velocityX) ∧
    (s.positionX > MOVEMENT.MAX_X →
      (constrainBirdPosition s).positionX = MOVEMENT.MAX_X ∧
      (constrainBirdPosition s).velocityX = min 0 s.velocityX) ∧
    (s.positionY < 0 →
      (constrainBirdPosition s).positionY = 0 ∧
      (constrainBirdPosition s).velocityY = max 0 s.velocityY) ∧
    (s.positionY > GAME.HEIGHT →
      (constrainBirdPosition s).positionY = GAME.HEIGHT ∧
      (constrainBirdPosition s).velocityY = min 0 s.velocityY) ∧
    (MOVEMENT.MIN_X ≤ s.positionX → s.positionX ≤ MOVEMENT.MAX_X →
      0 ≤ s.positionY → s.positionY ≤ GAME.HEIGHT →
      constrainBirdPosition s = s) := by
  refine ⟨fun h => ?_, fun h => ?_, fun h => ?_, fun h => ?_,
    fun h1 h2 h3 h4 => constrainBirdPosition_id s h1 h2 h3 h4⟩
  · rw [constrainBirdPosition_positionX, constrainBirdPosition_velocityX, if_pos h, if_pos h]
    exact ⟨rfl, rfl⟩
  · have hx : ¬(s.positionX < MOVEMENT.MIN_X) := by
      rw [not_lt]
      calc MOVEMENT.MIN_X ≤ MOVEMENT.MAX_X := by norm_num [MOVEMENT.MIN_X, MOVEMENT.MAX_X]
        _ ≤ s.positionX := le_of_lt h
    rw [constrainBirdPosition_positionX, constrainBirdPosition_velocityX,
      if_neg hx, if_pos h, if_neg hx, if_pos h]
    exact ⟨rfl, rfl⟩
  · rw [constrainBirdPosition_positionY, constrainBirdPosition_velocityY, if_pos h, if_pos h]
    exact ⟨rfl, rfl⟩
  · have hy : ¬(s.positionY < 0) := by
      rw [not_lt]
      calc (0 : ℚ) ≤ GAME.HEIGHT := by norm_num [GAME.HEIGHT]
        _ ≤ s.positionY := le_of_lt h
    rw [constrainBirdPosition_positionY, constrainBirdPosition_velocityY,
      if_neg hy, if_pos h, if_neg hy, if_pos h]
    exact ⟨rfl, rfl⟩

/-- C5 witness: the spec's scenario 4 — `positionX = 190 < MIN_X` with
positive horizontal velocity is clamped to `MIN_X` with velocity floored. -/
theorem bound_velocity_clamp_rule_witness :
    lowXState.positionX < MOVEMENT.MIN_X ∧
    (constrainBirdPosition lowXState).positionX = MOVEMENT.MIN_X ∧
    (constrainBirdPosition lowXState).velocityX = max 0 lowXState.velocityX := by
  have h : lowXState.positionX < MOVEMENT.MIN_X := by
    norm_num [lowXState, initState, MOVEMENT.MIN_X]
  have hc := (bound_velocity_clamp_rule lowXState).1 h
  exact ⟨h, hc.1, hc.2⟩

/-- C6: With non-negative deltas, each frame adds
`forwardVelocity · delta · WORLD_SCROLL_FACTOR` (with the frame's forward
velocity non-negative) to `worldOffset` and `CONSTANT_SCROLL_SPEED · delta`
to `backgroundOffset`, so both accumulators are non-decreasing in every frame
and across any run. -/
theorem offsets_monotone (dt : ℚ) (s : FlightState) (inputs : List (ℚ × Bool))
    (hdt : 0 ≤ dt) (hin : ∀ p ∈ inputs, 0 ≤ p.1) :
    (frame dt s).worldOffset =
      s.worldOffset + (frame dt s).forwardVelocity * dt * MOVEMENT.WORLD_SCROLL_FACTOR ∧
    0 ≤ (frame dt s).forwardVelocity ∧
    (frame dt s).backgroundOffset =
      s.backgroundOffset + BACKGROUND.CONSTANT_SCROLL_SPEED * dt ∧
    s.worldOffset ≤ (frame dt s).worldOffset ∧
    s.backgroundOffset ≤ (frame dt s).backgroundOffset ∧
    s.worldOffset ≤ (run s inputs).worldOffset ∧
    s.backgroundOffset ≤ (run s inputs).backgroundOffset :=
  ⟨frame_worldOffset dt s,
    le_trans (by norm_num [PHYSICS.BASE_FORWARD_SPEED]) (base_le_frame_forwardVelocity dt s),
    frame_backgroundOffset dt s,
    frame_worldOffset_mono dt s hdt,
    frame_backgroundOffset_mono dt s hdt,
    (run_offsets_mono inputs s hin).1,
    (run_offsets_mono inputs s hin).2⟩

/-- C6 witness: one thrusting frame of 1/60 s does not decrease the offsets. -/
theorem offsets_monotone_witness :
    (0 : ℚ) ≤ 1 / 60 ∧ (∀ p ∈ [((1 : ℚ) / 60, true)], 0 ≤ p.1) ∧
    initState.worldOffset ≤ (run initState [((1 : ℚ) / 60, true)]).worldOffset ∧
    initState.backgroundOffset ≤ (run initState [((1 : ℚ) / 60, true)]).backgroundOffset := by
  have h1 : (0 : ℚ) ≤ 1 / 60 := by norm_num
  have h2 : ∀ p ∈ [((1 : ℚ) / 60, true)], 0 ≤ p.1 := by norm_num
  have hc := offsets_monotone (1 / 60) initState [((1 : ℚ) / 60, true)] h1 h2
  exact ⟨h1, h2, hc.2.2.2.2.2.1, hc.2.2.2.2.2.2⟩

/-- C7: `backgroundOffset` is independent of the thrust input: every frame
advances it by exactly `CONSTANT_SCROLL_SPEED · delta`, and two runs from the
same state with the same deltas but arbitrary thrust sequences agree on
`backgroundOffset` after every frame. -/
theorem background_noninterference (s : FlightState) (i1 i2 : List (ℚ × Bool))
    (h : i1.map Prod.fst = i2.map Prod.fst) :
    (∀ dt : ℚ, (frame dt s).backgroundOffset =
      s.backgroundOffset + BACKGROUND.CONSTANT_SCROLL_SPEED * dt) ∧
    ∀ n : ℕ, (run s (i1.take n)).backgroundOffset =
      (run s (i2.take n)).backgroundOffset := by
  refine ⟨fun dt => frame_backgroundOffset dt s, fun n => ?_⟩
  rw [run_backgroundOffset (i1.take n) s, run_backgroundOffset (i2.take n) s]
  have ht : (i1.take n).map Prod.fst = (i2.take n).map Prod.fst := by
    rw [List.map_take, List.map_take, h]
  rw [ht]

/-- C7 witness: a thrusting and a non-thrusting run over the same one-second
frame have the same background offset. -/
theorem background_noninterference_witness :
    ([((1 : ℚ), true)].map Prod.fst = [((1 : ℚ), false)].map Prod.fst) ∧
    (run initState ([((1 : ℚ), true)].take 1)).backgroundOffset =
      (run initState ([((1 : ℚ), false)].take 1)).backgroundOffset := by
  have h : [((1 : ℚ), true)].map Prod.fst = [((1 : ℚ), false)].map Prod.fst := by simp
  exact ⟨h, (background_noninterference initState [((1 : ℚ), true)] [((1 : ℚ), false)] h).2 1⟩

/-- C8: Each frame's camera step aims at `worldOffset * 0.2` using the
world offset from before this frame's world/distance increment, and the new
scroll is the lerp `scrollX + CAMERA_LERP * (target - scrollX)` with
`CAMERA_LERP = 0.1`. -/
theorem camera_update_rule (dt : ℚ) (s : FlightState) :
    (frame dt s).cameraTargetX = s.worldOffset * 0.2 ∧
    (frame dt s).cameraScrollX =
      s.cameraScrollX + MOVEMENT.CAMERA_LERP * (s.worldOffset * 0.2 - s.cameraScrollX) ∧
    MOVEMENT.CAMERA_LERP = 0.1 := by
  refine ⟨by simp [frame], ?_, rfl⟩
  have h : (frame dt s).cameraScrollX =
      phaserLinear s.cameraScrollX (s.worldOffset * 0.2) MOVEMENT.CAMERA_LERP := by
    simp [frame]
  rw [h, phaserLinear]
  ring

/-- C9: Each frame adds `forwardVelocity · delta · WORLD_SCROLL_FACTOR` to
`worldOffset`, using the forward velocity computed this frame, and the
displayed distance is `⌊worldOffset / 10⌋`; in particular a world offset of
500 displays as 50. -/
theorem world_distance_rule (dt : ℚ) (s : FlightState) :
    (frame dt s).worldOffset =
      s.worldOffset + (frame dt s).forwardVelocity * dt * MOVEMENT.WORLD_SCROLL_FACTOR ∧
    (frame dt s).distance = Int.floor ((frame dt s).worldOffset / 10) ∧
    (updateWorldPosition 0 { s with worldOffset := 500 }).distance = 50 := by
  refine ⟨frame_worldOffset dt s, ?_, ?_⟩
  · simp [frame]
  · norm_num [updateWorldPosition, MOVEMENT.WORLD_SCROLL_FACTOR]

/-- C10: The per-frame update only reads `isThrusting` and never writes it;
the pointer-down handler sets it to true and the pointer-up handler to
false, and they are the only writers. -/
theorem thrust_flag_frame_effect (dt : ℚ) (s : FlightState) :
    (frame dt s).isThrusting = s.isThrusting ∧
    (update dt s).isThrusting = s.isThrusting ∧
    (pointerDown s).isThrusting = true ∧
    (pointerUp s).isThrusting = false :=
  ⟨by simp [frame], by simp [update, frame], rfl, rfl⟩

end Pigeon
